import Mathlib

/-!
Verification of the RISC-V SSE (Supervisor Software Events) dispatch core and
the hardware-breakpoint trigger manager, shallowly embedded from
`drivers/firmware/riscv/riscv_sse.c`, `arch/riscv/kernel/sse.c` and
`arch/riscv/kernel/hw_breakpoint.c`.

Firmware (the SBI layer) is external to the sources: it is modelled as an
oracle mapping the index of a call (its position in the trace of calls made
so far) and the call's arguments to an SBI return pair.  Every embedded
function threads an explicit call trace (call together with the firmware's
answer), so theorems can speak about exactly which firmware calls were
issued and in which order.  Memory allocation is modelled as always
succeeding: no claim under consideration concerns the out-of-memory paths.
-/

set_option linter.unusedVariables false

/-- SBI standard error codes (from `asm/sbi.h`, which is outside the source
tree).  Modelled from the spec: the error taxonomy of section 7 — success,
internal failure, not-supported, invalid-parameter, denied, invalid-address,
already-available, and the invalid-state code used by the SSE extension. -/
inductive SbiError where
  | success
  | failed
  | notSupported
  | invalidParam
  | denied
  | invalidAddress
  | alreadyAvailable
  | invalidState
deriving DecidableEq, Repr

/-- Return pair of an SBI call: an error code and a value. -/
structure Sbiret where
  error : SbiError
  value : Nat
deriving DecidableEq, Repr

def EPERM : Int := 1
def EioErr : Int := 5
def ENOMEM : Int := 12
def EFAULT : Int := 14
def EBUSY : Int := 16
def EEXIST : Int := 17
def EINVAL : Int := 22
def ERANGE : Int := 34
def EOPNOTSUPP : Int := 95

/-- Mapping of SBI error codes to Linux errno values (`sbi_err_map_linux_errno`
from `arch/riscv/kernel/sbi.c`, outside the source tree).  Modelled from the
spec: PermissionDenied, InvalidParameter, bad-address and NotSupported map to
their standard errno counterparts; everything else maps to the NotSupported
errno as the default. -/
def sbi_err_map_linux_errno : SbiError → Int
  | SbiError.success => 0
  | SbiError.denied => -EPERM
  | SbiError.invalidParam => -EINVAL
  | SbiError.invalidAddress => -EFAULT
  | _ => -EOPNOTSUPP

/-- The SSE-extension firmware functions invoked by the driver. -/
inductive SseFunc where
  | register
  | unregister
  | enable
  | disable
  | attrRead
  | attrWrite
  | hartMask
  | hartUnmask
deriving DecidableEq, Repr

/-- Global/local discriminating bit of an SSE event id.  Modelled from the
spec: the top bit of the 32-bit numeric identifier distinguishes global from
local events (`SBI_SSE_EVENT_GLOBAL` lives in `asm/sbi.h`, outside src/). -/
def SBI_SSE_EVENT_GLOBAL : Nat := 2 ^ 31

/-- Attribute ids used by the driver (`asm/sbi.h`, outside src/); modelled
from the spec as distinct numeric tokens. -/
def SBI_SSE_ATTR_PRIORITY : Nat := 1
def SBI_SSE_ATTR_PREFERRED_HART : Nat := 3
def SBI_SSE_ATTR_INTERRUPTED_A6 : Nat := 10

/-- One SBI call of the SSE driver: the cpu that issues it, the firmware
function, the event id, and (for attribute calls) the attribute id and the
value written (for reads, `val` records the attribute count requested). -/
structure SseCall where
  cpu : Nat
  func : SseFunc
  evt : Nat
  attr : Nat := 0
  val : Nat := 0
deriving DecidableEq, Repr

/-- The firmware oracle: given the number of SBI calls made so far and the
call's arguments, produce the firmware's answer. -/
abbrev SseFw := Nat → SseCall → Sbiret

/-- A trace of SBI calls, each paired with the firmware's answer. -/
abbrev SseTrace := List (SseCall × Sbiret)

/-- Issue one SBI call: extend the trace and return the firmware's answer
(`sbi_ecall`). -/
def sbiCall (fw : SseFw) (tr : SseTrace) (c : SseCall) : SseTrace × Sbiret :=
  (tr ++ [(c, fw tr.length c)], fw tr.length c)

/-- The driver's per-event state (`struct sse_event`): event id, priority,
logical enabled flag, and — meaningful for global events only — the cpu
currently designated to receive the event. -/
structure SseEvent where
  evt : Nat
  priority : Nat
  is_enabled : Bool
  cpu : Nat
deriving DecidableEq, Repr

/-- `sse_event_is_global`: tests the global bit of the event id. -/
def sse_event_is_global (evt : Nat) : Bool :=
  decide (evt &&& SBI_SSE_EVENT_GLOBAL ≠ 0)

/-- `sse_event_get`: look the event id up in the registry list. -/
def sse_event_get (registry : List SseEvent) (evt : Nat) : Option SseEvent :=
  registry.find? (fun e => e.evt = evt)

/-- `cpuid_to_hartid_map` (external to src/): modelled from the spec as an
abstract cpu-to-hart renaming, taken to be the identity. -/
def cpuid_to_hartid_map (c : Nat) : Nat := c

/-- `riscv_hartid_to_cpuid` (external to src/): inverse renaming, identity. -/
def riscv_hartid_to_cpuid (h : Nat) : Nat := h

/-- `sse_sbi_event_func`: one SBI call taking only the event id, with its
error mapped to an errno. -/
def sse_sbi_event_func (fw : SseFw) (tr : SseTrace) (cpu : Nat) (evt : Nat)
    (func : SseFunc) : SseTrace × Int :=
  let r := sbiCall fw tr { cpu := cpu, func := func, evt := evt }
  (r.1, sbi_err_map_linux_errno r.2.error)

/-- `sse_event_attr_set_nolock`: write one attribute value.  An
`SBI_ERR_INVALID_STATE` answer is tolerated (the function returns 0 for it);
any other firmware error is mapped to an errno. -/
def sse_event_attr_set_nolock (fw : SseFw) (tr : SseTrace) (cpu : Nat)
    (evt : Nat) (attrId : Nat) (val : Nat) : SseTrace × Int :=
  let r := sbiCall fw tr
    { cpu := cpu, func := SseFunc.attrWrite, evt := evt, attr := attrId, val := val }
  if r.2.error ≠ SbiError.success ∧ r.2.error ≠ SbiError.invalidState then
    (r.1, sbi_err_map_linux_errno r.2.error)
  else
    (r.1, 0)

/-- `sse_event_attr_get_no_lock`: read one attribute value. -/
def sse_event_attr_get_no_lock (fw : SseFw) (tr : SseTrace) (cpu : Nat)
    (evt : Nat) (attrId : Nat) : SseTrace × Int × Nat :=
  let r := sbiCall fw tr
    { cpu := cpu, func := SseFunc.attrRead, evt := evt, attr := attrId, val := 1 }
  if r.2.error ≠ SbiError.success then
    (r.1, sbi_err_map_linux_errno r.2.error, 0)
  else
    (r.1, 0, r.2.value)

/-- `sse_sbi_register_event`: set the priority attribute, then issue the
firmware register call carrying the storage's entry point. -/
def sse_sbi_register_event (fw : SseFw) (tr : SseTrace) (cpu : Nat)
    (event : SseEvent) : SseTrace × Int :=
  let r := sse_event_attr_set_nolock fw tr cpu event.evt SBI_SSE_ATTR_PRIORITY
    event.priority
  if r.2 ≠ 0 then r
  else
    let r2 := sbiCall fw r.1 { cpu := cpu, func := SseFunc.register, evt := event.evt }
    (r2.1, sbi_err_map_linux_errno r2.2.error)

/-- `on_each_cpu (sse_event_per_cpu_func)`: run the per-cpu firmware call on
every online cpu, accumulating the shared error flag.  The broadcast visits
every online cpu regardless of earlier failures; the flag is set whenever a
cpu's call fails (`WRITE_ONCE(cpu_evt->error, 1)`). -/
def sse_per_cpu_broadcast (fw : SseFw) (tr : SseTrace) (err : Bool)
    (online : List Nat) (event : SseEvent) (func : SseFunc) : SseTrace × Bool :=
  match online with
  | [] => (tr, err)
  | c :: rest =>
    let r :=
      if func = SseFunc.register then sse_sbi_register_event fw tr c event
      else sse_sbi_event_func fw tr c event.evt func
    sse_per_cpu_broadcast fw r.1 (err || decide (r.2 ≠ 0)) rest event func

/-- Result of `sse_event_register`: the returned handle or errno, the registry
after the call, and the trace of firmware calls issued. -/
structure RegisterResult where
  res : Except Int SseEvent
  registry : List SseEvent
  tr : SseTrace
deriving Repr

/-- `sse_event_register`: fail if the extension is unavailable or the id is
already registered; otherwise allocate the event (allocation modelled as
succeeding) and, for a global event, read the preferred hart and issue one
register call on the current cpu, or, for a local event, broadcast the
register call to every online cpu and broadcast an unregister rollback if the
shared error flag was set.  On rollback the function frees the event and
returns `ERR_PTR(ret)` with `ret` still holding 0, exactly as the source does;
on success the event is added to the registry list (head insertion). -/
def sse_event_register (fw : SseFw) (sse_available : Bool)
    (registry : List SseEvent) (online : List Nat) (curCpu : Nat)
    (evt : Nat) (prio : Nat) : RegisterResult :=
  if !sse_available then
    { res := Except.error (-EOPNOTSUPP), registry := registry, tr := [] }
  else if (sse_event_get registry evt).isSome then
    { res := Except.error (-EEXIST), registry := registry, tr := [] }
  else
    let event : SseEvent := { evt := evt, priority := prio, is_enabled := false, cpu := 0 }
    if sse_event_is_global evt then
      let rg := sse_event_attr_get_no_lock fw [] curCpu evt SBI_SSE_ATTR_PREFERRED_HART
      if rg.2.1 ≠ 0 then
        { res := Except.error rg.2.1, registry := registry, tr := rg.1 }
      else
        let event := { event with cpu := riscv_hartid_to_cpuid rg.2.2 }
        let rr := sse_sbi_register_event fw rg.1 curCpu event
        if rr.2 ≠ 0 then
          { res := Except.error rr.2, registry := registry, tr := rr.1 }
        else
          { res := Except.ok event, registry := event :: registry, tr := rr.1 }
    else
      let rb := sse_per_cpu_broadcast fw [] false online event SseFunc.register
      if rb.2 then
        let ru := sse_per_cpu_broadcast fw rb.1 false online event SseFunc.unregister
        { res := Except.error 0, registry := registry, tr := ru.1 }
      else
        { res := Except.ok event, registry := event :: registry, tr := rb.1 }

/-- Result of `sse_event_enable`: trace, updated event, and the returned
errno. -/
structure EnableResult where
  tr : SseTrace
  event : SseEvent
  ret : Int
deriving Repr

/-- `sse_event_enable`: global events get a single enable call; local events
get an enable broadcast to every online cpu, with a disable broadcast rolled
out to every online cpu when any enable failed.  In the local failure branch
the function jumps to the exit label with `ret` still 0, as the source does;
the logical `is_enabled` flag is set only when no failure occurred. -/
def sse_event_enable (fw : SseFw) (event : SseEvent) (online : List Nat)
    (curCpu : Nat) : EnableResult :=
  if sse_event_is_global event.evt then
    let r := sse_sbi_event_func fw [] curCpu event.evt SseFunc.enable
    if r.2 ≠ 0 then { tr := r.1, event := event, ret := r.2 }
    else { tr := r.1, event := { event with is_enabled := true }, ret := 0 }
  else
    let rb := sse_per_cpu_broadcast fw [] false online event SseFunc.enable
    if rb.2 then
      let rd := sse_per_cpu_broadcast fw rb.1 false online event SseFunc.disable
      { tr := rd.1, event := event, ret := 0 }
    else
      { tr := rb.1, event := { event with is_enabled := true }, ret := 0 }

/-- Observer for stating rollback properties: the set of cpus on which the
firmware considers the event enabled after a trace, obtained by replaying the
successful enable/disable calls of that event in order. -/
def fwEnabledCpus (evt : Nat) (tr : SseTrace) : List Nat :=
  tr.foldl (fun s cr =>
    if cr.1.evt = evt ∧ cr.2.error = SbiError.success then
      match cr.1.func with
      | SseFunc.enable => if cr.1.cpu ∈ s then s else s ++ [cr.1.cpu]
      | SseFunc.disable => s.filter (fun x => x ≠ cr.1.cpu)
      | _ => s
    else s) []

/-- The preferred-hart attribute write retry loop of
`sse_event_set_target_cpu_nolock`, with explicit fuel standing for the
unbounded `do { } while (ret == -EINVAL)` spin: `none` means the loop was
still spinning when the fuel ran out. -/
def attr_set_retry_loop (fw : SseFw) (cpu : Nat) (evt : Nat) (val : Nat) :
    Nat → SseTrace → SseTrace × Option Int
  | 0, tr => (tr, none)
  | fuel + 1, tr =>
    let r := sse_event_attr_set_nolock fw tr cpu evt SBI_SSE_ATTR_PREFERRED_HART val
    if r.2 = -EINVAL then attr_set_retry_loop fw cpu evt val fuel r.1
    else (r.1, some r.2)

/-- `sse_event_set_target_cpu_nolock`: reject local events with `-EINVAL`;
otherwise disable the event if it was enabled, spin the preferred-hart
attribute write while it maps to `-EINVAL`, record the new cpu exactly when
the loop exited with 0, re-enable if it was enabled, and return 0
unconditionally (the source ends in `return 0`, not `return ret`).  The
result is `none` when the retry loop was still spinning at the given fuel. -/
def sse_event_set_target_cpu_nolock (fw : SseFw) (tr : SseTrace)
    (event : SseEvent) (cpu : Nat) (execCpu : Nat) (fuel : Nat) :
    SseTrace × SseEvent × Option Int :=
  let hart_id := cpuid_to_hartid_map cpu
  if !sse_event_is_global event.evt then (tr, event, some (-EINVAL))
  else
    let was_enabled := event.is_enabled
    let tr1 :=
      if was_enabled then (sse_sbi_event_func fw tr execCpu event.evt SseFunc.disable).1
      else tr
    match attr_set_retry_loop fw execCpu event.evt hart_id fuel tr1 with
    | (tr2, none) => (tr2, event, none)
    | (tr2, some ret) =>
      let event := if ret = 0 then { event with cpu := cpu } else event
      let tr3 :=
        if was_enabled then (sse_sbi_event_func fw tr2 execCpu event.evt SseFunc.enable).1
        else tr2
      (tr3, event, some 0)

/-- State of the two blocking locks taken by `sse_event_set_target_cpu`: the
global serialization mutex and the cpu-hotplug read lock (hold count). -/
structure LockState where
  sse_mutex : Bool
  cpus_read_lock : Nat
deriving DecidableEq, Repr

/-- Result of `sse_event_set_target_cpu`: trace, updated event, returned errno
(`none` when the inner retry loop was still spinning), and the lock state at
the point the function returns to its caller. -/
structure SetTargetResult where
  tr : SseTrace
  event : SseEvent
  ret : Option Int
  locks : LockState
deriving Repr

/-- `sse_event_set_target_cpu`: takes the mutex and the cpu-hotplug read
lock, returns `-EINVAL` directly when the target cpu is not online — the
source returns at that point without passing through the unlock calls — and
otherwise runs the nolock body and releases both locks. -/
def sse_event_set_target_cpu (fw : SseFw) (event : SseEvent) (cpu : Nat)
    (online : List Nat) (execCpu : Nat) (fuel : Nat) : SetTargetResult :=
  if cpu ∉ online then
    { tr := [], event := event, ret := some (-EINVAL),
      locks := { sse_mutex := true, cpus_read_lock := 1 } }
  else
    match sse_event_set_target_cpu_nolock fw [] event cpu execCpu fuel with
    | (tr, event, none) =>
      { tr := tr, event := event, ret := none,
        locks := { sse_mutex := true, cpus_read_lock := 1 } }
    | (tr, event, some ret) =>
      { tr := tr, event := event, ret := some ret,
        locks := { sse_mutex := false, cpus_read_lock := 0 } }

/-- `cpumask_any_but`: the first online cpu different from `c`; when no such
cpu exists the kernel returns a value at or beyond `nr_cpu_ids`, modelled
here by the sentinel 4096. -/
def cpumask_any_but (online : List Nat) (c : Nat) : Nat :=
  ((online.filter (fun x => x ≠ c)).head?).getD 4096

/-- One registry entry's processing inside `sse_cpu_teardown`'s loop: local
events are disabled on the departing cpu when their logical flag is set and
then unregistered there; global events targeting the departing cpu are
migrated with `sse_event_set_target_cpu_nolock` towards `cpumask_any_but`. -/
def sse_teardown_step (fw : SseFw) (cpu : Nat) (online : List Nat)
    (fuel : Nat) (acc : SseTrace × List SseEvent) (e : SseEvent) :
    SseTrace × List SseEvent :=
  if !sse_event_is_global e.evt then
    let tr1 :=
      if e.is_enabled then (sse_sbi_event_func fw acc.1 cpu e.evt SseFunc.disable).1
      else acc.1
    let tr2 := (sse_sbi_event_func fw tr1 cpu e.evt SseFunc.unregister).1
    (tr2, acc.2 ++ [e])
  else if e.cpu ≠ cpu then
    (acc.1, acc.2 ++ [e])
  else
    let next := cpumask_any_but online cpu
    let r := sse_event_set_target_cpu_nolock fw acc.1 e next cpu fuel
    (r.1, acc.2 ++ [r.2.1])

/-- `sse_cpu_teardown`: mask event delivery on the departing cpu first, then
walk the registry applying the per-event teardown work. -/
def sse_cpu_teardown (fw : SseFw) (registry : List SseEvent)
    (online : List Nat) (cpu : Nat) (fuel : Nat) : SseTrace × List SseEvent :=
  let tr0 := (sbiCall fw [] { cpu := cpu, func := SseFunc.hartMask, evt := 0 }).1
  registry.foldl (sse_teardown_step fw cpu online fuel) (tr0, [])

/-! ## Dispatch path (`arch/riscv/kernel/sse.c`) -/

/-- Fields of `struct sse_registered_event` that the dispatch path reads: the
event id and the opaque handler argument captured at registration time
(`sse_event_init_registered` stores the owning event's id in `evt_id`). -/
structure SseRegisteredEvent where
  evt_id : Nat
  handler_arg : Nat
deriving DecidableEq, Repr

/-- A user handler: `(event_num, arg, regs) -> int`, with the trap frame
abstracted to a numeric tag. -/
abbrev SseHandler := Nat → Nat → Nat → Int

/-- Software-interrupt-enable bit (`IE_SIE`, bit 1) set in the interrupt
pending CSR by the dispatch path. -/
def IE_SIE : Nat := 2

/-- Outcome of one `do_sse` delivery: the firmware calls issued, the handler
invocations (event id, argument, trap-frame tag) in order, the warnings
logged (event id and the handler's non-zero return), and the interrupt
pending CSR after exit. -/
structure DoSseResult where
  tr : SseTrace
  handlerCalls : List (Nat × Nat × Nat)
  warns : List (Nat × Int)
  csr_ip : Nat
deriving Repr

/-- `sse_handle_event`: invoke the user handler once and log a warning when
it returns non-zero.  The returned pair lists the handler invocation and the
warnings. -/
def sse_handle_event (handler : SseHandler) (reg_evt : SseRegisteredEvent)
    (regs : Nat) : List (Nat × Nat × Nat) × List (Nat × Int) :=
  let ret := handler reg_evt.evt_id reg_evt.handler_arg regs
  ([(reg_evt.evt_id, reg_evt.handler_arg, regs)],
   if ret ≠ 0 then [(reg_evt.evt_id, ret)] else [])

/-- `do_sse`: fetch the missing interrupted register state from firmware with
one attribute-read call (two attributes starting at `INTERRUPTED_A6`), invoke
`sse_handle_event`, and set the software-interrupt pending bit in the CSR on
exit, unconditionally. -/
def do_sse (fw : SseFw) (cpu : Nat) (handler : SseHandler)
    (reg_evt : SseRegisteredEvent) (regs : Nat) (csr_ip : Nat) : DoSseResult :=
  let r := sbiCall fw []
    { cpu := cpu, func := SseFunc.attrRead, evt := reg_evt.evt_id,
      attr := SBI_SSE_ATTR_INTERRUPTED_A6, val := 2 }
  let h := sse_handle_event handler reg_evt regs
  { tr := r.1, handlerCalls := h.1, warns := h.2, csr_ip := csr_ip ||| IE_SIE }

/-! ## Hardware trigger manager (`arch/riscv/kernel/hw_breakpoint.c`) -/

/-- Debug-trigger type codes (`asm/hw_breakpoint.h`). -/
def RV_DBTR_TRIG_NONE : Nat := 0
def RV_DBTR_TRIG_MCONTROL : Nat := 2
def RV_DBTR_TRIG_MCONTROL6 : Nat := 6

/-- Breakpoint vs watchpoint discriminator (`asm/hw_breakpoint.h`). -/
def RV_DBTR_BP : Nat := 0
def RV_DBTR_WP : Nat := 1

/-- Perf breakpoint type and length codes (`uapi/linux/hw_breakpoint.h`,
outside src/).  Modelled from the spec: read/write/execute kinds and the
1/2/4/8-byte lengths of a breakpoint request. -/
def HW_BREAKPOINT_R : Nat := 1
def HW_BREAKPOINT_W : Nat := 2
def HW_BREAKPOINT_RW : Nat := 3
def HW_BREAKPOINT_X : Nat := 4
def HW_BREAKPOINT_LEN_1 : Nat := 1
def HW_BREAKPOINT_LEN_2 : Nat := 2
def HW_BREAKPOINT_LEN_4 : Nat := 4
def HW_BREAKPOINT_LEN_8 : Nat := 8

/-- `__set_bit` on an `unsigned long` modelled on `Nat`. -/
def setBitN (t : Nat) (i : Nat) : Nat := t ||| (1 <<< i)

/-- `__clear_bit` on an `unsigned long` modelled on `Nat`. -/
def clearBitN (t : Nat) (i : Nat) : Nat :=
  if t.testBit i then t - (1 <<< i) else t

/-- Clear a bit field of the given low bit and width, then install a value
into it (the `t &= ~mask; t |= (val << lo) & mask` macro pattern). -/
def setFieldN (t : Nat) (lo : Nat) (width : Nat) (val : Nat) : Nat :=
  (t / 2 ^ (lo + width)) * 2 ^ (lo + width) + t % 2 ^ lo + (val % 2 ^ width) * 2 ^ lo

/-- Bit positions of the mcontrol (type 2) trigger control word, 64-bit
layout (`asm/hw_breakpoint.h`). -/
def MC_LOAD_BIT : Nat := 0
def MC_STORE_BIT : Nat := 1
def MC_EXEC_BIT : Nat := 2
def MC_U_BIT : Nat := 3
def MC_S_BIT : Nat := 4
def MC_M_BIT : Nat := 6
def MC_MATCH_BIT : Nat := 7
def MC_CHAIN_BIT : Nat := 11
def MC_ACTION_BIT : Nat := 12
def MC_SIZELO_BIT : Nat := 16
def MC_TIMING_BIT : Nat := 18
def MC_SELECT_BIT : Nat := 19
def MC_SIZEHI_BIT : Nat := 21
def MC_DMODE_BIT : Nat := 59
def MC_TYPE_BIT : Nat := 60

/-- Bit positions of the mcontrol6 (type 6) trigger control word, 64-bit
layout (`asm/hw_breakpoint.h`). -/
def MC6_LOAD_BIT : Nat := 0
def MC6_STORE_BIT : Nat := 1
def MC6_EXEC_BIT : Nat := 2
def MC6_U_BIT : Nat := 3
def MC6_S_BIT : Nat := 4
def MC6_M_BIT : Nat := 6
def MC6_MATCH_BIT : Nat := 7
def MC6_CHAIN_BIT : Nat := 11
def MC6_ACTION_BIT : Nat := 12
def MC6_SIZE_BIT : Nat := 16
def MC6_TIMING_BIT : Nat := 20
def MC6_SELECT_BIT : Nat := 21
def MC6_VU_BIT : Nat := 23
def MC6_VS_BIT : Nat := 24
def MC6_DMODE_BIT : Nat := 59
def MC6_TYPE_BIT : Nat := 60

/-- The `TDATA1` type field (`RV_DBTR_SET_TDATA1_TYPE`): 4-bit field at bit
60 in the 64-bit layout. -/
def tdata1_with_type (ty : Nat) : Nat := setFieldN 0 60 4 ty

/-- A breakpoint request as seen by the parser (`struct perf_event_attr`
fields used: bp_type, bp_len, bp_addr). -/
structure PerfEventAttr where
  bp_type : Nat
  bp_len : Nat
  bp_addr : Nat
deriving DecidableEq, Repr

/-- `struct arch_hw_breakpoint`: the parsed trigger configuration. -/
structure ArchHwBreakpoint where
  address : Nat
  len : Nat
  type : Nat
  tdata1 : Nat
  tdata2 : Nat
  tdata3 : Nat
deriving DecidableEq, Repr

/-- `rv_init_mcontrol_trigger`: translate the request into the legacy
mcontrol control word, rejecting unsupported type/length combinations. -/
def rv_init_mcontrol_trigger (attr : PerfEventAttr) (hw : ArchHwBreakpoint) :
    Except Int ArchHwBreakpoint :=
  let step1 : Except Int ArchHwBreakpoint :=
    if attr.bp_type = HW_BREAKPOINT_X then
      Except.ok { hw with type := RV_DBTR_BP, tdata1 := setBitN hw.tdata1 MC_EXEC_BIT }
    else if attr.bp_type = HW_BREAKPOINT_R then
      Except.ok { hw with type := RV_DBTR_WP, tdata1 := setBitN hw.tdata1 MC_LOAD_BIT }
    else if attr.bp_type = HW_BREAKPOINT_W then
      Except.ok { hw with type := RV_DBTR_WP, tdata1 := setBitN hw.tdata1 MC_STORE_BIT }
    else if attr.bp_type = HW_BREAKPOINT_RW then
      Except.ok { hw with
                  type := RV_DBTR_WP
                  tdata1 := setBitN (setBitN hw.tdata1 MC_LOAD_BIT) MC_STORE_BIT }
    else Except.error (-EINVAL)
  match step1 with
  | Except.error e => Except.error e
  | Except.ok hw =>
    let step2 : Except Int ArchHwBreakpoint :=
      if attr.bp_len = HW_BREAKPOINT_LEN_1 then
        Except.ok { hw with len := 1, tdata1 := setFieldN hw.tdata1 MC_SIZELO_BIT 2 1 }
      else if attr.bp_len = HW_BREAKPOINT_LEN_2 then
        Except.ok { hw with len := 2, tdata1 := setFieldN hw.tdata1 MC_SIZELO_BIT 2 2 }
      else if attr.bp_len = HW_BREAKPOINT_LEN_4 then
        Except.ok { hw with len := 4, tdata1 := setFieldN hw.tdata1 MC_SIZELO_BIT 2 3 }
      else if attr.bp_len = HW_BREAKPOINT_LEN_8 then
        Except.ok { hw with
                    len := 8
                    tdata1 := setFieldN (setFieldN hw.tdata1 MC_SIZELO_BIT 2 1) MC_SIZEHI_BIT 2 1 }
      else Except.error (-EINVAL)
    match step2 with
    | Except.error e => Except.error e
    | Except.ok hw =>
      let t := setFieldN hw.tdata1 MC_TYPE_BIT 4 RV_DBTR_TRIG_MCONTROL
      let t := clearBitN t MC_DMODE_BIT
      let t := clearBitN t MC_TIMING_BIT
      let t := clearBitN t MC_SELECT_BIT
      let t := clearBitN t MC_ACTION_BIT
      let t := clearBitN t MC_CHAIN_BIT
      let t := clearBitN t MC_MATCH_BIT
      let t := clearBitN t MC_M_BIT
      let t := setBitN t MC_S_BIT
      let t := setBitN t MC_U_BIT
      Except.ok { hw with tdata1 := t }

/-- `rv_init_mcontrol6_trigger`: translate the request into the modern
mcontrol6 control word, rejecting unsupported type/length combinations. -/
def rv_init_mcontrol6_trigger (attr : PerfEventAttr) (hw : ArchHwBreakpoint) :
    Except Int ArchHwBreakpoint :=
  let step1 : Except Int ArchHwBreakpoint :=
    if attr.bp_type = HW_BREAKPOINT_X then
      Except.ok { hw with type := RV_DBTR_BP, tdata1 := setBitN hw.tdata1 MC6_EXEC_BIT }
    else if attr.bp_type = HW_BREAKPOINT_R then
      Except.ok { hw with type := RV_DBTR_WP, tdata1 := setBitN hw.tdata1 MC6_LOAD_BIT }
    else if attr.bp_type = HW_BREAKPOINT_W then
      Except.ok { hw with type := RV_DBTR_WP, tdata1 := setBitN hw.tdata1 MC6_STORE_BIT }
    else if attr.bp_type = HW_BREAKPOINT_RW then
      Except.ok { hw with
                  type := RV_DBTR_WP
                  tdata1 := setBitN (setBitN hw.tdata1 MC6_STORE_BIT) MC6_LOAD_BIT }
    else Except.error (-EINVAL)
  match step1 with
  | Except.error e => Except.error e
  | Except.ok hw =>
    let step2 : Except Int ArchHwBreakpoint :=
      if attr.bp_len = HW_BREAKPOINT_LEN_1 then
        Except.ok { hw with len := 1, tdata1 := setFieldN hw.tdata1 MC6_SIZE_BIT 4 1 }
      else if attr.bp_len = HW_BREAKPOINT_LEN_2 then
        Except.ok { hw with len := 2, tdata1 := setFieldN hw.tdata1 MC6_SIZE_BIT 4 2 }
      else if attr.bp_len = HW_BREAKPOINT_LEN_4 then
        Except.ok { hw with len := 4, tdata1 := setFieldN hw.tdata1 MC6_SIZE_BIT 4 3 }
      else if attr.bp_len = HW_BREAKPOINT_LEN_8 then
        Except.ok { hw with len := 8, tdata1 := setFieldN hw.tdata1 MC6_SIZE_BIT 4 5 }
      else Except.error (-EINVAL)
    match step2 with
    | Except.error e => Except.error e
    | Except.ok hw =>
      let t := setFieldN hw.tdata1 MC6_TYPE_BIT 4 RV_DBTR_TRIG_MCONTROL6
      let t := clearBitN t MC6_DMODE_BIT
      let t := clearBitN t MC6_TIMING_BIT
      let t := clearBitN t MC6_SELECT_BIT
      let t := clearBitN t MC6_ACTION_BIT
      let t := clearBitN t MC6_CHAIN_BIT
      let t := clearBitN t MC6_MATCH_BIT
      let t := clearBitN t MC6_M_BIT
      let t := clearBitN t MC6_VS_BIT
      let t := clearBitN t MC6_VU_BIT
      let t := setBitN t MC6_S_BIT
      let t := setBitN t MC6_U_BIT
      Except.ok { hw with tdata1 := t }

/-- The firmware side of trigger-capacity discovery: the probe result for the
debug-trigger extension and the answer to each `NUM_TRIGGERS` query, keyed by
the `tdata1` trigger-format argument passed with the query. -/
structure DbtrFw where
  probe : Int
  numTriggers : Nat → Sbiret

/-- The process-wide discovery state (`dbtr_total_num`, `dbtr_type`,
`dbtr_init` statics). -/
structure DbtrState where
  dbtr_total_num : Nat
  dbtr_type : Nat
  dbtr_init : Bool
deriving DecidableEq, Repr

/-- The state of the statics before any discovery ran. -/
def dbtrInitialState : DbtrState :=
  { dbtr_total_num := 0, dbtr_type := 0, dbtr_init := false }

/-- `init_sbi_dbtr`: probe the extension, query the slot count (first with no
format, then with the mcontrol6 format, then falling back to the legacy
mcontrol format when the modern query errors or reports zero), record the
count and the format in use, and mark discovery done.  The returned list is
the `tdata1` argument of each `NUM_TRIGGERS` query issued, in order. -/
def init_sbi_dbtr (fw : DbtrFw) (s : DbtrState) : DbtrState × List Nat :=
  if fw.probe ≤ 0 then
    ({ s with dbtr_total_num := 0, dbtr_init := true }, [])
  else
    let r0 := fw.numTriggers 0
    if r0.error ≠ SbiError.success then
      ({ s with dbtr_total_num := 0, dbtr_init := true }, [0])
    else
      let q6 := tdata1_with_type RV_DBTR_TRIG_MCONTROL6
      let r6 := fw.numTriggers q6
      if r6.error = SbiError.success ∧ r6.value ≠ 0 then
        ({ s with
           dbtr_total_num := r6.value
           dbtr_type := RV_DBTR_TRIG_MCONTROL6
           dbtr_init := true }, [0, q6])
      else
        let q2 := tdata1_with_type RV_DBTR_TRIG_MCONTROL
        let r2 := fw.numTriggers q2
        if r2.error = SbiError.success ∧ r2.value ≠ 0 then
          ({ s with
             dbtr_total_num := r2.value
             dbtr_type := RV_DBTR_TRIG_MCONTROL
             dbtr_init := true }, [0, q6, q2])
        else
          ({ s with dbtr_init := true }, [0, q6, q2])

/-- `hw_breakpoint_slots`: run discovery lazily if it has not run yet, then
return the recorded slot count.  The middle component lists the firmware
queries this call performed. -/
def hw_breakpoint_slots (fw : DbtrFw) (s : DbtrState) :
    DbtrState × List Nat × Nat :=
  if !s.dbtr_init then
    let r := init_sbi_dbtr fw s
    (r.1, r.2, r.1.dbtr_total_num)
  else
    (s, [], s.dbtr_total_num)

/-- `hw_breakpoint_arch_parse`: record the address, then translate via the
recorded trigger format; an unknown recorded format fails with the
not-supported errno without any firmware interaction.  The caller hands in a
zero-initialized `arch_hw_breakpoint`. -/
def hw_breakpoint_arch_parse (s : DbtrState) (attr : PerfEventAttr) :
    Except Int ArchHwBreakpoint :=
  let hw : ArchHwBreakpoint :=
    { address := attr.bp_addr, len := 0, type := 0, tdata1 := 0,
      tdata2 := attr.bp_addr, tdata3 := 0 }
  if s.dbtr_type = RV_DBTR_TRIG_MCONTROL then rv_init_mcontrol_trigger attr hw
  else if s.dbtr_type = RV_DBTR_TRIG_MCONTROL6 then rv_init_mcontrol6_trigger attr hw
  else Except.error (-EOPNOTSUPP)

/-- `arch_install_hw_breakpoint`: issue the firmware install call (its answer
and the slot index written into the shared memory are the `fwErr`/`fwIdx`
parameters), validate the returned slot index against the discovered
capacity, check the per-cpu slot table entry is free, and only then record
the event there.  The per-cpu slot table is a map from slot index to the
installed event (`pcpu_hw_bp_events`), events being named by numeric tags. -/
def arch_install_hw_breakpoint (total : Nat) (table : Nat → Option Nat)
    (fwErr : SbiError) (fwIdx : Nat) (event : Nat) :
    (Nat → Option Nat) × Int :=
  if fwErr ≠ SbiError.success then
    (table, -EioErr)
  else if total ≤ fwIdx then
    (table, -EINVAL)
  else
    match table fwIdx with
    | some _ => (table, -EBUSY)
    | none => (fun j => if j = fwIdx then some event else table j, 0)

/-! ## Observers used to state properties -/

/-- The freshly-allocated event of `sse_event_alloc` (zero-allocated, so the
enabled flag is clear and the recorded cpu is 0). -/
def sse_event_new (evt : Nat) (prio : Nat) : SseEvent :=
  { evt := evt, priority := prio, is_enabled := false, cpu := 0 }

/-- Expected firmware-call sequence of one registry entry's teardown
processing when every firmware call succeeds: local events are disabled (if
enabled) and unregistered on the departing cpu; global events targeting the
departing cpu are disabled (if enabled), get one preferred-hart attribute
write towards `cpumask_any_but`, and are re-enabled (if enabled). -/
def sse_teardown_calls (cpu : Nat) (online : List Nat) (e : SseEvent) :
    List SseCall :=
  if !sse_event_is_global e.evt then
    (if e.is_enabled then [{ cpu := cpu, func := SseFunc.disable, evt := e.evt }] else [])
      ++ [{ cpu := cpu, func := SseFunc.unregister, evt := e.evt }]
  else if e.cpu ≠ cpu then []
  else
    (if e.is_enabled then [{ cpu := cpu, func := SseFunc.disable, evt := e.evt }] else [])
      ++ [{ cpu := cpu, func := SseFunc.attrWrite, evt := e.evt,
            attr := SBI_SSE_ATTR_PREFERRED_HART,
            val := cpuid_to_hartid_map (cpumask_any_but online cpu) }]
      ++ (if e.is_enabled then [{ cpu := cpu, func := SseFunc.enable, evt := e.evt }] else [])

/-- Expected per-event state change of teardown when every firmware call
succeeds: a global event targeting the departing cpu is retargeted to
`cpumask_any_but`; everything else is untouched. -/
def sse_teardown_migrate (online : List Nat) (cpu : Nat) (e : SseEvent) : SseEvent :=
  if sse_event_is_global e.evt = true ∧ e.cpu = cpu then
    { e with cpu := cpumask_any_but online cpu }
  else e

/-- The per-cpu call pattern of a local-event register broadcast when every
priority write succeeds: for each online cpu in order, one priority attribute
write followed by one register call. -/
def register_pair_calls (evt : Nat) (prio : Nat) : List Nat → List SseCall
  | [] => []
  | c :: rest =>
      { cpu := c, func := SseFunc.attrWrite, evt := evt,
        attr := SBI_SSE_ATTR_PRIORITY, val := prio }
        :: { cpu := c, func := SseFunc.register, evt := evt }
        :: register_pair_calls evt prio rest

/-- One call of the given function per online cpu, in order. -/
def simple_calls (evt : Nat) (func : SseFunc) : List Nat → List SseCall
  | [] => []
  | c :: rest => { cpu := c, func := func, evt := evt } :: simple_calls evt func rest

/-- Concatenation of the expected teardown calls of the registry entries. -/
def teardown_all_calls (cpu : Nat) (online : List Nat) : List SseEvent → List SseCall
  | [] => []
  | e :: rest => sse_teardown_calls cpu online e ++ teardown_all_calls cpu online rest

/-! ## Concrete firmware oracles and events for witnesses and counterexamples -/

/-- Firmware that answers success to every call. -/
def fwAllOk : SseFw := fun _ _ => { error := SbiError.success, value := 0 }

/-- Firmware for the 4-cpu registration scenario: the register call fails on
cpu 2, everything else succeeds. -/
def fwRegFailCpu2 : SseFw := fun _ c =>
  if c.func = SseFunc.register ∧ c.cpu = 2 then { error := SbiError.failed, value := 0 }
  else { error := SbiError.success, value := 0 }

/-- Firmware for the enable-rollback scenario: the enable call fails on
cpu 1, everything else succeeds. -/
def fwEnableFailCpu1 : SseFw := fun _ c =>
  if c.func = SseFunc.enable ∧ c.cpu = 1 then { error := SbiError.failed, value := 0 }
  else { error := SbiError.success, value := 0 }

/-- Firmware that answers invalid-state to every attribute write. -/
def fwAttrWriteInvalidState : SseFw := fun _ c =>
  if c.func = SseFunc.attrWrite then { error := SbiError.invalidState, value := 0 }
  else { error := SbiError.success, value := 0 }

/-- Firmware that answers invalid-parameter to every attribute write. -/
def fwAttrWriteInvalidParam : SseFw := fun _ c =>
  if c.func = SseFunc.attrWrite then { error := SbiError.invalidParam, value := 0 }
  else { error := SbiError.success, value := 0 }

/-- Firmware that answers denied to every attribute write. -/
def fwAttrWriteDenied : SseFw := fun _ c =>
  if c.func = SseFunc.attrWrite then { error := SbiError.denied, value := 0 }
  else { error := SbiError.success, value := 0 }

/-- A local event with id 1 and priority 5. -/
def localEvt1 : SseEvent := sse_event_new 1 5

/-- A disabled global event recorded on cpu 0. -/
def globalEvtA : SseEvent :=
  { evt := SBI_SSE_EVENT_GLOBAL + 2, priority := 0, is_enabled := false, cpu := 0 }

/-- An enabled local event with id 1. -/
def localEvt1Enabled : SseEvent :=
  { evt := 1, priority := 5, is_enabled := true, cpu := 0 }

/-- An enabled global event recorded on cpu 0. -/
def globalEvtAEnabled : SseEvent :=
  { evt := SBI_SSE_EVENT_GLOBAL + 2, priority := 0, is_enabled := true, cpu := 0 }

/-- Trigger-discovery firmware with the extension present but zero slots in
either trigger format. -/
def fwDbtrZero : DbtrFw :=
  { probe := 1, numTriggers := fun _ => { error := SbiError.success, value := 0 } }

/-- Trigger-discovery firmware with the extension absent. -/
def fwDbtrAbsent : DbtrFw :=
  { probe := 0, numTriggers := fun _ => { error := SbiError.success, value := 0 } }

/-- Trigger-discovery firmware advertising 4 mcontrol6 slots. -/
def fwDbtrMc6 : DbtrFw :=
  { probe := 1
    numTriggers := fun q =>
      if q = tdata1_with_type RV_DBTR_TRIG_MCONTROL6 then { error := SbiError.success, value := 4 }
      else { error := SbiError.success, value := 0 } }

/-- Trigger-discovery firmware whose mcontrol6 query fails but which
advertises 2 legacy mcontrol slots. -/
def fwDbtrLegacy : DbtrFw :=
  { probe := 1
    numTriggers := fun q =>
      if q = tdata1_with_type RV_DBTR_TRIG_MCONTROL6 then { error := SbiError.failed, value := 0 }
      else if q = tdata1_with_type RV_DBTR_TRIG_MCONTROL then { error := SbiError.success, value := 2 }
      else { error := SbiError.success, value := 0 } }

/-- An example per-cpu slot table with slot 2 occupied by event 7. -/
def exampleSlotTable : Nat → Option Nat := fun j => if j = 2 then some 7 else none

/-! ## Claim theorems -/

/-- Claim C6: on every firmware-delivered dispatch, `do_sse` invokes the user
handler exactly once with the event id, the registered argument and the trap
frame; a non-zero handler return is logged as a warning but changes nothing
else, and the software-interrupt pending bit is set on exit regardless of the
handler's return value. -/
theorem do_sse_dispatches_once_and_sets_sip (fw : SseFw) (cpu : Nat)
    (handler : SseHandler) (reg_evt : SseRegisteredEvent) (regs : Nat) (csr : Nat) :
    (do_sse fw cpu handler reg_evt regs csr).handlerCalls
        = [(reg_evt.evt_id, reg_evt.handler_arg, regs)] ∧
    (do_sse fw cpu handler reg_evt regs csr).csr_ip = csr ||| IE_SIE ∧
    (do_sse fw cpu handler reg_evt regs csr).warns
        = (if handler reg_evt.evt_id reg_evt.handler_arg regs ≠ 0
           then [(reg_evt.evt_id, handler reg_evt.evt_id reg_evt.handler_arg regs)]
           else []) := by
  exact ⟨rfl, rfl, rfl⟩

/-- Claim C2 (code bug evidence): for a local event on two online cpus where
the firmware enable call fails on cpu 1, `sse_event_enable` enables cpu 0,
sees the failure on cpu 1, rolls back with a disable broadcast to both cpus
(leaving zero cpus enabled on the firmware side), and leaves the logical
`is_enabled` flag false — yet it returns 0, not a non-zero error, because the
local branch never assigns `ret` on the failure path. -/
theorem sse_event_enable_rollback_but_returns_zero :
    ((sse_event_enable fwEnableFailCpu1 localEvt1 [0, 1] 0).tr.map Prod.fst
        = [{ cpu := 0, func := SseFunc.enable, evt := 1 },
           { cpu := 1, func := SseFunc.enable, evt := 1 },
           { cpu := 0, func := SseFunc.disable, evt := 1 },
           { cpu := 1, func := SseFunc.disable, evt := 1 }]) ∧
    fwEnabledCpus 1 (sse_event_enable fwEnableFailCpu1 localEvt1 [0, 1] 0).tr = [] ∧
    (sse_event_enable fwEnableFailCpu1 localEvt1 [0, 1] 0).event.is_enabled = false ∧
    (sse_event_enable fwEnableFailCpu1 localEvt1 [0, 1] 0).ret = 0 := by
  exact ⟨rfl, rfl, rfl, rfl⟩

/-- Claim C3 (code bug evidence): in `sse_event_set_target_cpu_nolock`, a
firmware invalid-state answer to the preferred-hart write is treated as
immediate success — exactly one attribute write is issued, no retry happens,
the recorded cpu is updated and 0 is returned — while an invalid-parameter
answer is what the loop actually retries on (still spinning after 7 attempts
of fuel), and a denied answer ends the loop yet the function still returns 0
with the recorded cpu unchanged, so no firmware error ever surfaces. -/
theorem set_target_cpu_retry_loop_divergence :
    (((sse_event_set_target_cpu_nolock fwAttrWriteInvalidState [] globalEvtA 1 0 4).1.map
        Prod.fst).filter (fun c => c.func = SseFunc.attrWrite)
      = [{ cpu := 0, func := SseFunc.attrWrite, evt := SBI_SSE_EVENT_GLOBAL + 2,
           attr := SBI_SSE_ATTR_PREFERRED_HART, val := 1 }]) ∧
    (sse_event_set_target_cpu_nolock fwAttrWriteInvalidState [] globalEvtA 1 0 4).2.1.cpu = 1 ∧
    (sse_event_set_target_cpu_nolock fwAttrWriteInvalidState [] globalEvtA 1 0 4).2.2 = some 0 ∧
    (sse_event_set_target_cpu_nolock fwAttrWriteInvalidParam [] globalEvtA 1 0 7).2.2 = none ∧
    ((sse_event_set_target_cpu_nolock fwAttrWriteInvalidParam [] globalEvtA 1 0 7).1.length = 7) ∧
    (sse_event_set_target_cpu_nolock fwAttrWriteDenied [] globalEvtA 1 0 4).2.2 = some 0 ∧
    (sse_event_set_target_cpu_nolock fwAttrWriteDenied [] globalEvtA 1 0 4).2.1.cpu = 0 := by
  refine ⟨?_, ?_, ?_, ?_, ?_, ?_, ?_⟩ <;> rfl

/-- Claim C10 (code bug evidence): `sse_event_set_target_cpu` called with an
offline target cpu returns `-EINVAL` while still holding both the global
mutex and the cpu-hotplug read lock, whereas a call with an online target
releases both before returning. -/
theorem set_target_cpu_leaks_locks_when_cpu_offline :
    (sse_event_set_target_cpu fwAllOk globalEvtA 5 [0, 1] 0 3).locks
        = { sse_mutex := true, cpus_read_lock := 1 } ∧
    (sse_event_set_target_cpu fwAllOk globalEvtA 5 [0, 1] 0 3).ret = some (-EINVAL) ∧
    (sse_event_set_target_cpu fwAllOk globalEvtA 1 [0, 1] 0 3).locks
        = { sse_mutex := false, cpus_read_lock := 0 } := by
  refine ⟨?_, ?_, ?_⟩ <;> rfl

/-- Claim C4: registering an event id that is already present in the registry
fails with `-EEXIST`, issues no firmware call, and leaves the registry — and
with it the original registration — untouched. -/
theorem register_duplicate_fails_eexist (fw : SseFw) (registry : List SseEvent)
    (online : List Nat) (curCpu : Nat) (evt : Nat) (prio : Nat)
    (h : (sse_event_get registry evt).isSome = true) :
    (sse_event_register fw true registry online curCpu evt prio).res
        = Except.error (-EEXIST) ∧
    (sse_event_register fw true registry online curCpu evt prio).registry = registry ∧
    (sse_event_register fw true registry online curCpu evt prio).tr = [] := by
  refine ⟨?_, ?_, ?_⟩ <;> simp [sse_event_register, h]

/-- Witness for C4 at a concrete registry holding event id 1. -/
theorem register_duplicate_fails_eexist_witness :
    (sse_event_register fwAllOk true [localEvt1] [0, 1] 0 1 5).res
        = Except.error (-EEXIST) ∧
    (sse_event_register fwAllOk true [localEvt1] [0, 1] 0 1 5).registry = [localEvt1] :=
  ⟨(register_duplicate_fails_eexist fwAllOk [localEvt1] [0, 1] 0 1 5 (by decide)).1,
   (register_duplicate_fails_eexist fwAllOk [localEvt1] [0, 1] 0 1 5 (by decide)).2.1⟩

/-- Claim C5: `sse_event_set_target_cpu` fails with `-EINVAL` whenever the
event is local or the target cpu is not online, and in both cases the event —
in particular its recorded target cpu — is unchanged. -/
theorem set_target_cpu_rejects_local_and_offline (fw : SseFw) (event : SseEvent)
    (cpu : Nat) (online : List Nat) (execCpu : Nat) (fuel : Nat)
    (h : sse_event_is_global event.evt = false ∨ cpu ∉ online) :
    (sse_event_set_target_cpu fw event cpu online execCpu fuel).ret
        = some (-EINVAL) ∧
    (sse_event_set_target_cpu fw event cpu online execCpu fuel).event = event := by
  rcases h with h | h
  · by_cases hm : cpu ∈ online
    · simp [sse_event_set_target_cpu, hm, sse_event_set_target_cpu_nolock, h]
    · simp [sse_event_set_target_cpu, hm]
  · simp [sse_event_set_target_cpu, h]

/-- Witness for C5: a local event with an online target cpu, and a global
event with an offline target cpu. -/
theorem set_target_cpu_rejects_witness :
    (sse_event_set_target_cpu fwAllOk localEvt1 0 [0, 1] 0 3).ret = some (-EINVAL) ∧
    (sse_event_set_target_cpu fwAllOk globalEvtA 5 [0, 1] 0 3).event = globalEvtA :=
  ⟨(set_target_cpu_rejects_local_and_offline fwAllOk localEvt1 0 [0, 1] 0 3
      (Or.inl (by decide))).1,
   (set_target_cpu_rejects_local_and_offline fwAllOk globalEvtA 5 [0, 1] 0 3
      (Or.inr (by decide))).2⟩

/-- Claim C9: `arch_install_hw_breakpoint` maps a firmware install failure to
an I/O error, rejects a firmware-returned slot index at or beyond the
discovered capacity with `-EINVAL`, rejects an occupied slot with `-EBUSY`,
and records the event only otherwise; on every error return the per-cpu slot
table is unchanged, and on success only the returned index's slot changes. -/
theorem install_hw_breakpoint_validates_slot (total : Nat)
    (table : Nat → Option Nat) (fwErr : SbiError) (fwIdx : Nat) (event : Nat) :
    (fwErr ≠ SbiError.success →
        arch_install_hw_breakpoint total table fwErr fwIdx event = (table, -EioErr)) ∧
    (fwErr = SbiError.success → total ≤ fwIdx →
        arch_install_hw_breakpoint total table fwErr fwIdx event = (table, -EINVAL)) ∧
    (fwErr = SbiError.success → fwIdx < total → ∀ e0, table fwIdx = some e0 →
        arch_install_hw_breakpoint total table fwErr fwIdx event = (table, -EBUSY)) ∧
    (fwErr = SbiError.success → fwIdx < total → table fwIdx = none →
        (arch_install_hw_breakpoint total table fwErr fwIdx event).2 = 0 ∧
        (arch_install_hw_breakpoint total table fwErr fwIdx event).1 fwIdx = some event ∧
        ∀ j, j ≠ fwIdx →
          (arch_install_hw_breakpoint total table fwErr fwIdx event).1 j = table j) := by
  refine ⟨?_, ?_, ?_, ?_⟩
  · intro h
    simp [arch_install_hw_breakpoint, h]
  · intro h hle
    simp [arch_install_hw_breakpoint, h, hle, Nat.not_lt.mpr hle]
  · intro h hlt e0 hocc
    simp [arch_install_hw_breakpoint, h, Nat.not_le.mpr hlt, hocc]
  · intro h hlt hfree
    refine ⟨?_, ?_, ?_⟩ <;>
      simp [arch_install_hw_breakpoint, h, Nat.not_le.mpr hlt, hfree]
    intro j hj
    simp [hj]

/-- Witness for C9 on a 4-slot table with slot 2 occupied: firmware failure,
out-of-range index 7, occupied slot 2, and a successful install into free
slot 1 that leaves slot 2 alone. -/
theorem install_hw_breakpoint_validates_slot_witness :
    arch_install_hw_breakpoint 4 exampleSlotTable SbiError.failed 0 9
        = (exampleSlotTable, -EioErr) ∧
    arch_install_hw_breakpoint 4 exampleSlotTable SbiError.success 7 9
        = (exampleSlotTable, -EINVAL) ∧
    arch_install_hw_breakpoint 4 exampleSlotTable SbiError.success 2 9
        = (exampleSlotTable, -EBUSY) ∧
    (arch_install_hw_breakpoint 4 exampleSlotTable SbiError.success 1 9).2 = 0 ∧
    (arch_install_hw_breakpoint 4 exampleSlotTable SbiError.success 1 9).1 1 = some 9 ∧
    (arch_install_hw_breakpoint 4 exampleSlotTable SbiError.success 1 9).1 2 = some 7 :=
  ⟨(install_hw_breakpoint_validates_slot 4 exampleSlotTable SbiError.failed 0 9).1
      (by decide),
   (install_hw_breakpoint_validates_slot 4 exampleSlotTable SbiError.success 7 9).2.1
      rfl (by decide),
   (install_hw_breakpoint_validates_slot 4 exampleSlotTable SbiError.success 2 9).2.2.1
      rfl (by decide) 7 rfl,
   ((install_hw_breakpoint_validates_slot 4 exampleSlotTable SbiError.success 1 9).2.2.2
      rfl (by decide) rfl).1,
   ((install_hw_breakpoint_validates_slot 4 exampleSlotTable SbiError.success 1 9).2.2.2
      rfl (by decide) rfl).2.1,
   ((install_hw_breakpoint_validates_slot 4 exampleSlotTable SbiError.success 1 9).2.2.2
      rfl (by decide) rfl).2.2 2 (by decide)⟩

/-- Claim C8: trigger-capability discovery is lazy and runs at most once
(`hw_breakpoint_slots` on an initialized state issues no queries and every
discovery leaves the initialized flag set); with the extension present the
format queries go modern-first (an available mcontrol6 count is recorded with
the mcontrol6 format and the legacy format is never queried), the legacy
mcontrol query happens exactly when the modern one errors or reports zero,
and its result is recorded with the legacy format; with the extension absent
(or with neither format available) the recorded capacity stays zero, the slot
count returned is zero, and `hw_breakpoint_arch_parse` on a state with no
recorded format fails with the not-supported errno without any firmware
interaction. -/
theorem dbtr_discovery_once_modern_first_fallback :
    (∀ fw s, s.dbtr_init = true →
        hw_breakpoint_slots fw s = (s, [], s.dbtr_total_num)) ∧
    (∀ fw s, ((hw_breakpoint_slots fw s).1).dbtr_init = true) ∧
    (∀ fw s, fw.probe ≤ 0 →
        init_sbi_dbtr fw s = ({ s with dbtr_total_num := 0, dbtr_init := true }, [])) ∧
    (∀ fw s, 0 < fw.probe → (fw.numTriggers 0).error = SbiError.success →
        (fw.numTriggers (tdata1_with_type RV_DBTR_TRIG_MCONTROL6)).error = SbiError.success →
        (fw.numTriggers (tdata1_with_type RV_DBTR_TRIG_MCONTROL6)).value ≠ 0 →
        init_sbi_dbtr fw s
          = ({ s with
               dbtr_total_num := (fw.numTriggers (tdata1_with_type RV_DBTR_TRIG_MCONTROL6)).value
               dbtr_type := RV_DBTR_TRIG_MCONTROL6
               dbtr_init := true },
             [0, tdata1_with_type RV_DBTR_TRIG_MCONTROL6])) ∧
    (∀ fw s, 0 < fw.probe → (fw.numTriggers 0).error = SbiError.success →
        ((fw.numTriggers (tdata1_with_type RV_DBTR_TRIG_MCONTROL6)).error ≠ SbiError.success ∨
         (fw.numTriggers (tdata1_with_type RV_DBTR_TRIG_MCONTROL6)).value = 0) →
        (init_sbi_dbtr fw s).2
          = [0, tdata1_with_type RV_DBTR_TRIG_MCONTROL6,
             tdata1_with_type RV_DBTR_TRIG_MCONTROL] ∧
        ((fw.numTriggers (tdata1_with_type RV_DBTR_TRIG_MCONTROL)).error = SbiError.success →
         (fw.numTriggers (tdata1_with_type RV_DBTR_TRIG_MCONTROL)).value ≠ 0 →
         (init_sbi_dbtr fw s).1
           = { s with
               dbtr_total_num := (fw.numTriggers (tdata1_with_type RV_DBTR_TRIG_MCONTROL)).value
               dbtr_type := RV_DBTR_TRIG_MCONTROL
               dbtr_init := true }) ∧
        (((fw.numTriggers (tdata1_with_type RV_DBTR_TRIG_MCONTROL)).error ≠ SbiError.success ∨
          (fw.numTriggers (tdata1_with_type RV_DBTR_TRIG_MCONTROL)).value = 0) →
         (init_sbi_dbtr fw s).1 = { s with dbtr_init := true })) ∧
    (∀ fw, fw.probe ≤ 0 →
        hw_breakpoint_slots fw dbtrInitialState
          = ({ dbtrInitialState with dbtr_init := true }, [], 0)) ∧
    (∀ s attr, s.dbtr_type ≠ RV_DBTR_TRIG_MCONTROL →
        s.dbtr_type ≠ RV_DBTR_TRIG_MCONTROL6 →
        hw_breakpoint_arch_parse s attr = Except.error (-EOPNOTSUPP)) := by
  have hnot : ∀ (a b : Prop), (¬a ∨ b) → ¬(a ∧ ¬b) := by
    intro a b h hc
    rcases h with h | h
    · exact h hc.1
    · exact hc.2 h
  refine ⟨?_, ?_, ?_, ?_, ?_, ?_, ?_⟩
  · intro fw s h
    simp [hw_breakpoint_slots, h]
  · intro fw s
    by_cases h : s.dbtr_init
    · simp [hw_breakpoint_slots, h]
    · simp only [hw_breakpoint_slots, h, Bool.not_false, if_pos, init_sbi_dbtr]
      split_ifs <;> simp
  · intro fw s h
    simp [init_sbi_dbtr, h]
  · intro fw s hp h0 h6e h6v
    simp [init_sbi_dbtr, Int.not_le.mpr hp, h0, h6e, h6v]
  · intro fw s hp h0 h6
    have h6' := hnot _ _ (by
      rcases h6 with h | h
      · exact Or.inl h
      · exact Or.inr h)
    refine ⟨?_, ?_, ?_⟩
    · simp only [init_sbi_dbtr, Int.not_le.mpr hp, if_neg, h0]
      simp [h0, h6']
      split_ifs <;> rfl
    · intro h2e h2v
      simp [init_sbi_dbtr, Int.not_le.mpr hp, h0, h6', h2e, h2v]
    · intro h2
      have h2' := hnot _ _ (by
        rcases h2 with h | h
        · exact Or.inl h
        · exact Or.inr h)
      simp [init_sbi_dbtr, Int.not_le.mpr hp, h0, h6', h2']
  · intro fw hp
    simp [hw_breakpoint_slots, dbtrInitialState, init_sbi_dbtr, hp]
  · intro s attr h2 h6
    simp [hw_breakpoint_arch_parse, h2, h6]

/-- Witness for C8: discovery records 4 mcontrol6 slots when the modern query
answers 4 (querying modern before legacy and never querying legacy); with
both formats reporting zero slots the fallback query sequence runs and the
capacity stays zero; a second slot-count call on the initialized zero state
issues no firmware query and returns zero; parsing on that state fails with
the not-supported errno. -/
theorem dbtr_discovery_once_modern_first_fallback_witness :
    init_sbi_dbtr fwDbtrMc6 dbtrInitialState
      = ({ dbtr_total_num := 4, dbtr_type := RV_DBTR_TRIG_MCONTROL6, dbtr_init := true },
         [0, tdata1_with_type RV_DBTR_TRIG_MCONTROL6]) ∧
    (init_sbi_dbtr fwDbtrZero dbtrInitialState).2
      = [0, tdata1_with_type RV_DBTR_TRIG_MCONTROL6, tdata1_with_type RV_DBTR_TRIG_MCONTROL] ∧
    (init_sbi_dbtr fwDbtrZero dbtrInitialState).1
      = { dbtrInitialState with dbtr_init := true } ∧
    hw_breakpoint_slots fwDbtrZero { dbtrInitialState with dbtr_init := true }
      = ({ dbtrInitialState with dbtr_init := true }, [], 0) ∧
    hw_breakpoint_arch_parse { dbtrInitialState with dbtr_init := true }
        { bp_type := HW_BREAKPOINT_X, bp_len := HW_BREAKPOINT_LEN_1, bp_addr := 64 }
      = Except.error (-EOPNOTSUPP) :=
  ⟨dbtr_discovery_once_modern_first_fallback.2.2.2.1 fwDbtrMc6 dbtrInitialState
      (by decide) (by decide) (by decide) (by decide),
   (dbtr_discovery_once_modern_first_fallback.2.2.2.2.1 fwDbtrZero dbtrInitialState
      (by decide) (by decide) (Or.inr (by decide))).1,
   (dbtr_discovery_once_modern_first_fallback.2.2.2.2.1 fwDbtrZero dbtrInitialState
      (by decide) (by decide) (Or.inr (by decide))).2.2 (Or.inr (by decide)),
   dbtr_discovery_once_modern_first_fallback.1 fwDbtrZero
      { dbtrInitialState with dbtr_init := true } rfl,
   dbtr_discovery_once_modern_first_fallback.2.2.2.2.2.2
      { dbtrInitialState with dbtr_init := true } _ (by decide) (by decide)⟩


/-- Helper: a broadcast of a non-register function issues exactly one call of
that function per online cpu, in online order, after the existing trace. -/
theorem broadcast_simple_trace (fw : SseFw) (event : SseEvent) (func : SseFunc)
    (hf : func ≠ SseFunc.register) :
    ∀ (online : List Nat) (tr : SseTrace) (err : Bool),
    ((sse_per_cpu_broadcast fw tr err online event func).1).map Prod.fst
      = tr.map Prod.fst ++ simple_calls event.evt func online := by
  intro online
  induction online with
  | nil =>
    intro tr err
    simp [sse_per_cpu_broadcast, simple_calls]
  | cons c rest ih =>
    intro tr err
    rw [show sse_per_cpu_broadcast fw tr err (c :: rest) event func
          = sse_per_cpu_broadcast fw (sse_sbi_event_func fw tr c event.evt func).1
              (err || decide ((sse_sbi_event_func fw tr c event.evt func).2 ≠ 0))
              rest event func
        from by simp [sse_per_cpu_broadcast, hf]]
    rw [ih]
    simp [sse_sbi_event_func, sbiCall, simple_calls]

/-- Helper: when the priority attribute write succeeds,
`sse_sbi_register_event` issues exactly the priority write followed by the
register call. -/
theorem sse_sbi_register_event_calls (fw : SseFw) (tr : SseTrace) (cpu : Nat)
    (event : SseEvent)
    (hok : (fw tr.length { cpu := cpu, func := SseFunc.attrWrite, evt := event.evt,
                           attr := SBI_SSE_ATTR_PRIORITY,
                           val := event.priority }).error = SbiError.success) :
    ((sse_sbi_register_event fw tr cpu event).1).map Prod.fst
      = tr.map Prod.fst
          ++ [{ cpu := cpu, func := SseFunc.attrWrite, evt := event.evt,
                attr := SBI_SSE_ATTR_PRIORITY, val := event.priority },
              { cpu := cpu, func := SseFunc.register, evt := event.evt }] := by
  simp [sse_sbi_register_event, sse_event_attr_set_nolock, sbiCall, hok]

/-- Helper: when every priority attribute write succeeds, the register
broadcast issues, per online cpu in order, a priority write followed by a
register call. -/
theorem broadcast_register_trace (fw : SseFw) (event : SseEvent)
    (hPrio : ∀ n c, c.func = SseFunc.attrWrite → (fw n c).error = SbiError.success) :
    ∀ (online : List Nat) (tr : SseTrace) (err : Bool),
    ((sse_per_cpu_broadcast fw tr err online event SseFunc.register).1).map Prod.fst
      = tr.map Prod.fst ++ register_pair_calls event.evt event.priority online := by
  intro online
  induction online with
  | nil =>
    intro tr err
    simp [sse_per_cpu_broadcast, register_pair_calls]
  | cons c rest ih =>
    intro tr err
    have hok := hPrio tr.length
      { cpu := c, func := SseFunc.attrWrite, evt := event.evt,
        attr := SBI_SSE_ATTR_PRIORITY, val := event.priority } rfl
    rw [show sse_per_cpu_broadcast fw tr err (c :: rest) event SseFunc.register
          = sse_per_cpu_broadcast fw (sse_sbi_register_event fw tr c event).1
              (err || decide ((sse_sbi_register_event fw tr c event).2 ≠ 0))
              rest event SseFunc.register
        from by simp [sse_per_cpu_broadcast]]
    rw [ih, sse_sbi_register_event_calls fw tr c event hok]
    simp [register_pair_calls]

/-- Helper: the register calls among the priority-write/register pairs are
exactly one per cpu. -/
theorem filter_register_pair_calls (evt : Nat) (prio : Nat) (online : List Nat) :
    (register_pair_calls evt prio online).filter (fun c => c.func = SseFunc.register)
      = simple_calls evt SseFunc.register online := by
  induction online with
  | nil => rfl
  | cons c rest ih => simp [register_pair_calls, simple_calls, ih]

/-- Helper: the priority-write/register pairs contain no unregister call. -/
theorem filter_unregister_pair_calls (evt : Nat) (prio : Nat) (online : List Nat) :
    (register_pair_calls evt prio online).filter (fun c => c.func = SseFunc.unregister)
      = [] := by
  induction online with
  | nil => rfl
  | cons c rest ih => simp [register_pair_calls, ih]

/-- Helper: every call of a single-function sequence carries that function. -/
theorem simple_calls_func (evt : Nat) (f : SseFunc) :
    ∀ (online : List Nat), ∀ c ∈ simple_calls evt f online, c.func = f := by
  intro online
  induction online with
  | nil => simp [simple_calls]
  | cons c rest ih =>
    intro d hd
    rcases List.mem_cons.mp hd with hd | hd
    · subst hd
      rfl
    · exact ih d hd

/-- Helper: the calls of a single-function sequence filtered by a function. -/
theorem filter_simple_calls (evt : Nat) (f : SseFunc) (g : SseFunc) (online : List Nat) :
    (simple_calls evt f online).filter (fun c => c.func = g)
      = (if f = g then simple_calls evt f online else []) := by
  by_cases h : f = g
  · subst h
    rw [if_pos rfl]
    rw [List.filter_eq_self.mpr]
    intro a ha
    exact decide_eq_true (simple_calls_func evt f _ a ha)
  · rw [if_neg h]
    induction online with
    | nil => simp [simple_calls]
    | cons c rest ih => simp [simple_calls, h, ih]

/-- Claim C1 (amended): for a local event (with the duplicate check passed and
every priority write accepted), `sse_event_register` issues the firmware
register call exactly once per online cpu in order — the broadcast does not
stop at a failing cpu — and when any cpu's registration failed it issues an
unregister call on every online cpu (rolling back the cpus that succeeded),
leaves the registry unchanged, and returns an error pointer carrying 0 rather
than the mapped firmware error. -/
theorem register_local_broadcast_and_rollback (fw : SseFw) (registry : List SseEvent)
    (online : List Nat) (curCpu : Nat) (evt : Nat) (prio : Nat)
    (hG : sse_event_is_global evt = false)
    (hDup : (sse_event_get registry evt).isSome = false)
    (hPrio : ∀ n c, c.func = SseFunc.attrWrite → (fw n c).error = SbiError.success) :
    (((sse_event_register fw true registry online curCpu evt prio).tr.map Prod.fst).filter
        (fun c => c.func = SseFunc.register))
      = simple_calls evt SseFunc.register online ∧
    ((sse_per_cpu_broadcast fw [] false online (sse_event_new evt prio) SseFunc.register).2
        = true →
      (((sse_event_register fw true registry online curCpu evt prio).tr.map Prod.fst).filter
          (fun c => c.func = SseFunc.unregister))
        = simple_calls evt SseFunc.unregister online ∧
      (sse_event_register fw true registry online curCpu evt prio).res = Except.error 0 ∧
      (sse_event_register fw true registry online curCpu evt prio).registry = registry) := by
  have step : sse_event_register fw true registry online curCpu evt prio =
      (if (sse_per_cpu_broadcast fw [] false online (sse_event_new evt prio)
             SseFunc.register).2 then
         { res := Except.error 0
           registry := registry
           tr := (sse_per_cpu_broadcast fw
                   (sse_per_cpu_broadcast fw [] false online (sse_event_new evt prio)
                     SseFunc.register).1
                   false online (sse_event_new evt prio) SseFunc.unregister).1 }
       else
         { res := Except.ok (sse_event_new evt prio)
           registry := sse_event_new evt prio :: registry
           tr := (sse_per_cpu_broadcast fw [] false online (sse_event_new evt prio)
                   SseFunc.register).1 }) := by
    simp only [sse_event_register, hDup, hG, sse_event_new]
    rfl
  have htrR := broadcast_register_trace fw (sse_event_new evt prio) hPrio online [] false
  have htrU := fun tr err => broadcast_simple_trace fw (sse_event_new evt prio)
      SseFunc.unregister (by decide) online tr err
  by_cases hB : (sse_per_cpu_broadcast fw [] false online (sse_event_new evt prio)
      SseFunc.register).2 = true
  · rw [step, if_pos hB]
    refine ⟨?_, fun _ => ⟨?_, rfl, rfl⟩⟩
    · rw [htrU _ false, htrR]
      simp only [List.map_nil, List.nil_append, List.filter_append,
                 filter_register_pair_calls, filter_simple_calls]
      simp [sse_event_new]
    · rw [htrU _ false, htrR]
      simp only [List.map_nil, List.nil_append, List.filter_append,
                 filter_unregister_pair_calls, filter_simple_calls]
      simp [sse_event_new]
  · rw [step, if_neg hB]
    refine ⟨?_, fun h => absurd h hB⟩
    rw [htrR]
    simp only [List.map_nil, List.nil_append, filter_register_pair_calls]
    simp [sse_event_new]

/-- Claim C1 (counterexample to the claim as stated): in the 4-cpu scenario
where the firmware register call fails on cpu 2, the register call on cpu 3
is still attempted (the claim says it never is), each of cpus 0..3 receives
an unregister call, and the function returns the error pointer of 0 rather
than the mapped firmware error. -/
theorem register_local_cpu2_fail_counterexample :
    (((sse_event_register fwRegFailCpu2 true [] [0, 1, 2, 3] 0 1 5).tr.map Prod.fst).count
        { cpu := 3, func := SseFunc.register, evt := 1 } = 1) ∧
    (((sse_event_register fwRegFailCpu2 true [] [0, 1, 2, 3] 0 1 5).tr.map Prod.fst).filter
        (fun c => c.func = SseFunc.unregister)).map SseCall.cpu = [0, 1, 2, 3] ∧
    (sse_event_register fwRegFailCpu2 true [] [0, 1, 2, 3] 0 1 5).res = Except.error 0 ∧
    ¬((sse_event_register fwRegFailCpu2 true [] [0, 1, 2, 3] 0 1 5).res
        = Except.error (sbi_err_map_linux_errno SbiError.failed)) := by
  refine ⟨by decide, by decide, rfl, ?_⟩
  intro h
  have h2 : (0 : Int) = sbi_err_map_linux_errno SbiError.failed := by
    have h1 : (sse_event_register fwRegFailCpu2 true [] [0, 1, 2, 3] 0 1 5).res
        = Except.error 0 := rfl
    rw [h1] at h
    exact Except.error.inj h
  exact absurd h2 (by decide)

/-- Witness for C1's amended theorem at the concrete 4-cpu scenario. -/
theorem register_local_broadcast_and_rollback_witness :
    (((sse_event_register fwRegFailCpu2 true [] [0, 1, 2, 3] 0 1 5).tr.map Prod.fst).filter
        (fun c => c.func = SseFunc.register))
      = simple_calls 1 SseFunc.register [0, 1, 2, 3] ∧
    (((sse_event_register fwRegFailCpu2 true [] [0, 1, 2, 3] 0 1 5).tr.map Prod.fst).filter
        (fun c => c.func = SseFunc.unregister))
      = simple_calls 1 SseFunc.unregister [0, 1, 2, 3] ∧
    (sse_event_register fwRegFailCpu2 true [] [0, 1, 2, 3] 0 1 5).registry = [] := by
  have h := register_local_broadcast_and_rollback fwRegFailCpu2 [] [0, 1, 2, 3] 0 1 5
    (by decide) (by decide)
    (fun n c hc => by simp [fwRegFailCpu2, hc])
  exact ⟨h.1, (h.2 (by decide)).1, (h.2 (by decide)).2.2⟩

/-- Helper: with all-succeeding firmware, `sse_event_set_target_cpu_nolock`
on a global event issues disable (if enabled), one preferred-hart write, and
enable (if enabled), records the new cpu, and returns 0. -/
theorem set_target_nolock_ok (fw : SseFw)
    (hOk : ∀ n c, (fw n c).error = SbiError.success)
    (tr : SseTrace) (e : SseEvent) (cpu2 : Nat) (execCpu : Nat) (fuel : Nat)
    (hG : sse_event_is_global e.evt = true) :
    ((sse_event_set_target_cpu_nolock fw tr e cpu2 execCpu (fuel + 1)).1).map Prod.fst
      = tr.map Prod.fst
        ++ (if e.is_enabled then [{ cpu := execCpu, func := SseFunc.disable, evt := e.evt }] else [])
        ++ [{ cpu := execCpu, func := SseFunc.attrWrite, evt := e.evt,
              attr := SBI_SSE_ATTR_PREFERRED_HART, val := cpuid_to_hartid_map cpu2 }]
        ++ (if e.is_enabled then [{ cpu := execCpu, func := SseFunc.enable, evt := e.evt }] else []) ∧
    (sse_event_set_target_cpu_nolock fw tr e cpu2 execCpu (fuel + 1)).2.1
      = { e with cpu := cpu2 } ∧
    (sse_event_set_target_cpu_nolock fw tr e cpu2 execCpu (fuel + 1)).2.2 = some 0 := by
  by_cases hEn : e.is_enabled
  · simp [sse_event_set_target_cpu_nolock, hG, hEn, attr_set_retry_loop,
          sse_event_attr_set_nolock, sse_sbi_event_func, sbiCall, hOk, EINVAL]
  · simp [sse_event_set_target_cpu_nolock, hG, hEn, attr_set_retry_loop,
          sse_event_attr_set_nolock, sse_sbi_event_func, sbiCall, hOk, EINVAL]

/-- Helper: one teardown step issues exactly `sse_teardown_calls` and maps
the event through `sse_teardown_migrate` (all-succeeding firmware). -/
theorem teardown_step_ok (fw : SseFw)
    (hOk : ∀ n c, (fw n c).error = SbiError.success)
    (cpu : Nat) (online : List Nat) (fuel : Nat) (tr : SseTrace)
    (done : List SseEvent) (e : SseEvent) :
    ((sse_teardown_step fw cpu online (fuel + 1) (tr, done) e).1).map Prod.fst
      = tr.map Prod.fst ++ sse_teardown_calls cpu online e ∧
    (sse_teardown_step fw cpu online (fuel + 1) (tr, done) e).2
      = done ++ [sse_teardown_migrate online cpu e] := by
  by_cases hG : sse_event_is_global e.evt
  · by_cases hcpu : e.cpu = cpu
    · have hn := set_target_nolock_ok fw hOk tr e (cpumask_any_but online cpu) cpu fuel hG
      constructor
      · simp only [sse_teardown_step, hG, hcpu, Bool.not_true, Bool.false_eq_true, if_false,
                   ne_eq, not_true_eq_false]
        rw [hn.1]
        simp [sse_teardown_calls, hG, hcpu]
      · simp only [sse_teardown_step, hG, hcpu]
        simp [hn.2.1, sse_teardown_migrate, hG, hcpu]
    · constructor
      · simp only [sse_teardown_step, hG, hcpu]
        simp [sse_teardown_calls, hG, hcpu]
      · simp only [sse_teardown_step, hG, hcpu]
        simp [sse_teardown_migrate, hG, hcpu]
  · by_cases hEn : e.is_enabled
    · constructor
      · simp [sse_teardown_step, hG, hEn, sse_teardown_calls, sse_sbi_event_func, sbiCall]
      · simp [sse_teardown_step, hG, sse_teardown_migrate]
    · constructor
      · simp [sse_teardown_step, hG, hEn, sse_teardown_calls, sse_sbi_event_func, sbiCall]
      · simp [sse_teardown_step, hG, sse_teardown_migrate]

/-- Helper: the teardown loop issues the concatenated per-event calls and
maps every registry entry through `sse_teardown_migrate`. -/
theorem teardown_fold_ok (fw : SseFw)
    (hOk : ∀ n c, (fw n c).error = SbiError.success)
    (cpu : Nat) (online : List Nat) (fuel : Nat) :
    ∀ (l : List SseEvent) (tr : SseTrace) (done : List SseEvent),
    ((l.foldl (sse_teardown_step fw cpu online (fuel + 1)) (tr, done)).1).map Prod.fst
      = tr.map Prod.fst ++ teardown_all_calls cpu online l ∧
    (l.foldl (sse_teardown_step fw cpu online (fuel + 1)) (tr, done)).2
      = done ++ l.map (sse_teardown_migrate online cpu) := by
  intro l
  induction l with
  | nil =>
    intro tr done
    simp [teardown_all_calls]
  | cons e rest ih =>
    intro tr done
    rw [List.foldl_cons]
    have hstep := teardown_step_ok fw hOk cpu online fuel tr done e
    have hrec := ih (sse_teardown_step fw cpu online (fuel + 1) (tr, done) e).1
      (sse_teardown_step fw cpu online (fuel + 1) (tr, done) e).2
    constructor
    · rw [hrec.1, hstep.1, teardown_all_calls]
      simp [List.append_assoc]
    · rw [hrec.2, hstep.2]
      simp

/-- Helper: membership in the concatenated teardown calls. -/
theorem mem_teardown_all_calls (cpu : Nat) (online : List Nat) :
    ∀ (l : List SseEvent) (c : SseCall),
      c ∈ teardown_all_calls cpu online l
        ↔ ∃ e ∈ l, c ∈ sse_teardown_calls cpu online e := by
  intro l
  induction l with
  | nil =>
    intro c
    simp [teardown_all_calls]
  | cons e rest ih =>
    intro c
    simp [teardown_all_calls, List.mem_append, ih c]

/-- Helper: every teardown call of an event carries that event's id; a
disable call only exists when the event was enabled, and an unregister call
only exists for a local event. -/
theorem teardown_calls_shape (cpu : Nat) (online : List Nat) (e : SseEvent) :
    ∀ c ∈ sse_teardown_calls cpu online e,
      c.evt = e.evt ∧
      (c.func = SseFunc.disable → e.is_enabled = true) ∧
      (c.func = SseFunc.unregister → sse_event_is_global e.evt = false) := by
  intro c hc
  by_cases hG : sse_event_is_global e.evt <;>
    by_cases hcpu : e.cpu = cpu <;>
    by_cases hEn : e.is_enabled <;>
    simp [sse_teardown_calls, hG, hcpu, hEn] at hc <;>
    rcases hc with rfl | rfl | rfl <;>
    simp [hG, hEn]

/-- Helper: an enabled local event's teardown includes its disable call. -/
theorem disable_mem_of_enabled_local (cpu : Nat) (online : List Nat) (e : SseEvent)
    (hG : sse_event_is_global e.evt = false) (hEn : e.is_enabled = true) :
    ({ cpu := cpu, func := SseFunc.disable, evt := e.evt } : SseCall)
      ∈ sse_teardown_calls cpu online e := by
  simp [sse_teardown_calls, hG, hEn]

/-- Helper: a local event's teardown includes its unregister call. -/
theorem unregister_mem_of_local (cpu : Nat) (online : List Nat) (e : SseEvent)
    (hG : sse_event_is_global e.evt = false) :
    ({ cpu := cpu, func := SseFunc.unregister, evt := e.evt } : SseCall)
      ∈ sse_teardown_calls cpu online e := by
  by_cases hEn : e.is_enabled <;> simp [sse_teardown_calls, hG, hEn]

/-- Helper: when another online cpu exists, `cpumask_any_but` picks an
online cpu different from the excluded one. -/
theorem cpumask_any_but_spec (online : List Nat) (cpu : Nat)
    (h : ∃ c ∈ online, c ≠ cpu) :
    cpumask_any_but online cpu ∈ online ∧ cpumask_any_but online cpu ≠ cpu := by
  obtain ⟨c, hc, hne⟩ := h
  have hmem : c ∈ online.filter (fun x => x ≠ cpu) :=
    List.mem_filter.mpr ⟨hc, by simpa using hne⟩
  unfold cpumask_any_but
  cases hf : online.filter (fun x => x ≠ cpu) with
  | nil =>
    rw [hf] at hmem
    cases hmem
  | cons a rest =>
    have ha : a ∈ online.filter (fun x => x ≠ cpu) := by
      rw [hf]
      exact List.mem_cons_self a rest
    have ha2 := List.mem_filter.mp ha
    simp only [List.head?_cons, Option.getD_some]
    exact ⟨ha2.1, by simpa using ha2.2⟩

/-- Claim C7: on cpu-offline teardown (with firmware answering success),
event delivery is masked before any per-event work (the mask call heads the
trace); every local event is unregistered on the departing cpu and disabled
there exactly when its logical enabled flag is set; no unregister call is
ever issued for a global event id; and every global event whose recorded
target is the departing cpu is migrated to `cpumask_any_but`, which is some
other online cpu whenever one exists. -/
theorem sse_cpu_teardown_masks_locals_and_migrates_globals (fw : SseFw)
    (hOk : ∀ n c, (fw n c).error = SbiError.success)
    (registry : List SseEvent) (online : List Nat) (cpu : Nat) (fuel : Nat)
    (hIds : registry.Pairwise (fun a b => a.evt ≠ b.evt)) :
    ((sse_cpu_teardown fw registry online cpu (fuel + 1)).1.map Prod.fst).head?
        = some { cpu := cpu, func := SseFunc.hartMask, evt := 0 } ∧
    (∀ e ∈ registry, sse_event_is_global e.evt = false →
        (({ cpu := cpu, func := SseFunc.unregister, evt := e.evt } : SseCall)
            ∈ (sse_cpu_teardown fw registry online cpu (fuel + 1)).1.map Prod.fst) ∧
        ((({ cpu := cpu, func := SseFunc.disable, evt := e.evt } : SseCall)
            ∈ (sse_cpu_teardown fw registry online cpu (fuel + 1)).1.map Prod.fst)
          ↔ e.is_enabled = true)) ∧
    (∀ c ∈ (sse_cpu_teardown fw registry online cpu (fuel + 1)).1.map Prod.fst,
        c.func = SseFunc.unregister → sse_event_is_global c.evt = false) ∧
    ((sse_cpu_teardown fw registry online cpu (fuel + 1)).2
        = registry.map (sse_teardown_migrate online cpu)) ∧
    ((∃ c2 ∈ online, c2 ≠ cpu) → ∀ e ∈ registry,
        sse_event_is_global e.evt = true → e.cpu = cpu →
        (sse_teardown_migrate online cpu e).cpu ∈ online ∧
        (sse_teardown_migrate online cpu e).cpu ≠ cpu) := by
  have hsym : Symmetric (fun (a b : SseEvent) => a.evt ≠ b.evt) :=
    fun x y hxy hEq => hxy hEq.symm
  have hfold := teardown_fold_ok fw hOk cpu online fuel registry
      ((sbiCall fw [] { cpu := cpu, func := SseFunc.hartMask, evt := 0 }).1) []
  have hunfold : sse_cpu_teardown fw registry online cpu (fuel + 1)
      = registry.foldl (sse_teardown_step fw cpu online (fuel + 1))
          ((sbiCall fw [] { cpu := cpu, func := SseFunc.hartMask, evt := 0 }).1, []) := rfl
  have htr : (sse_cpu_teardown fw registry online cpu (fuel + 1)).1.map Prod.fst
      = { cpu := cpu, func := SseFunc.hartMask, evt := 0 }
          :: teardown_all_calls cpu online registry := by
    rw [hunfold, hfold.1]
    simp [sbiCall]
  have hreg : (sse_cpu_teardown fw registry online cpu (fuel + 1)).2
      = registry.map (sse_teardown_migrate online cpu) := by
    rw [hunfold, hfold.2]
    simp
  refine ⟨?_, ?_, ?_, hreg, ?_⟩
  · rw [htr]
    rfl
  · intro e he hG
    constructor
    · rw [htr]
      exact List.mem_cons_of_mem _
        ((mem_teardown_all_calls cpu online registry _).mpr
          ⟨e, he, unregister_mem_of_local cpu online e hG⟩)
    · constructor
      · intro hmem
        rw [htr] at hmem
        rcases List.mem_cons.mp hmem with hmem | hmem
        · have hbad := congrArg SseCall.func hmem
          simp at hbad
        · obtain ⟨e2, he2, hc⟩ := (mem_teardown_all_calls cpu online registry _).mp hmem
          have hshape := teardown_calls_shape cpu online e2 _ hc
          have hevt : e.evt = e2.evt := hshape.1
          have hEn2 : e2.is_enabled = true := hshape.2.1 rfl
          by_cases heq : e = e2
          · rw [heq]
            exact hEn2
          · exact absurd hevt (hIds.forall hsym he he2 heq)
      · intro hEn
        rw [htr]
        exact List.mem_cons_of_mem _
          ((mem_teardown_all_calls cpu online registry _).mpr
            ⟨e, he, disable_mem_of_enabled_local cpu online e hG hEn⟩)
  · intro c hc hf
    rw [htr] at hc
    rcases List.mem_cons.mp hc with hc | hc
    · rw [hc] at hf
      simp at hf
    · obtain ⟨e2, he2, hcall⟩ := (mem_teardown_all_calls cpu online registry _).mp hc
      have hshape := teardown_calls_shape cpu online e2 _ hcall
      rw [hshape.1]
      exact hshape.2.2 hf
  · intro hex e he hG hcpu
    have hspec := cpumask_any_but_spec online cpu hex
    simp only [sse_teardown_migrate, hG, hcpu, and_self, if_pos, true_and]
    simpa using hspec

/-- Witness for C7: a two-entry registry (an enabled local event and an
enabled global event targeting the departing cpu 0) on a 2-cpu system: the
trace starts with the mask call and the global event ends up retargeted to
cpu 1. -/
theorem sse_cpu_teardown_witness :
    ((sse_cpu_teardown fwAllOk [localEvt1Enabled, globalEvtAEnabled] [0, 1] 0 1).1.map
        Prod.fst).head? = some { cpu := 0, func := SseFunc.hartMask, evt := 0 } ∧
    (sse_cpu_teardown fwAllOk [localEvt1Enabled, globalEvtAEnabled] [0, 1] 0 1).2
      = [localEvt1Enabled, { globalEvtAEnabled with cpu := 1 }] :=
  ⟨(sse_cpu_teardown_masks_locals_and_migrates_globals fwAllOk (fun n c => rfl)
      [localEvt1Enabled, globalEvtAEnabled] [0, 1] 0 0 (by decide)).1,
   by
    have h := (sse_cpu_teardown_masks_locals_and_migrates_globals fwAllOk (fun n c => rfl)
      [localEvt1Enabled, globalEvtAEnabled] [0, 1] 0 0 (by decide)).2.2.2.1
    rw [h]
    decide⟩
